import Mathlib

/- Verification of the SocketSerial transport from pyftdi
   (pyftdi/serialext/protocol_unix.py): a fake serial port redirected to a
   Unix domain stream socket.  The development is a shallow embedding of the
   transport state and of its operations; the operating system and the peer
   are modelled as explicit traces of interaction events (readiness-wait
   results, bytes delivered by recv, counts or errors produced by send),
   so every operation is an executable Lean function of the state and of
   such a trace. -/

namespace SocketSerial

/-- Python exceptions that the embedded read and write operations can raise.
    portNotOpen is the pyserial portNotOpenError raised by read and write.
    nameError models the NameError produced at the two write-timeout raise
    sites in write: the statement there evaluates the global name serial,
    but the module only ever does a from-import from serial and never binds
    the bare name serial, so the lookup fails.  NameError is not an OSError,
    hence the except clause of the write loop does not catch it.
    osError carries the errno of the socket.error raised by a failing send;
    in Python 2 socket.error is a subclass of IOError, a sibling of OSError
    under EnvironmentError, so the except OSError clause of the write loop
    never catches it either and every send failure propagates. -/
inductive PyErr
  | portNotOpen
  | nameError
  | osError (code : Int)
deriving DecidableEq, Repr

deriving instance DecidableEq for Except

/-- The errno value named by the retry test in the except clause of the
    write loop (errno.EAGAIN, value 11 on Linux); the test is unreachable,
    since no exception raised inside the try block is an OSError. -/
def EAGAIN : Int := 11

/-- Exceptions the OS can deliver during open, from socket creation or from
    connect.  socket.error carries an errno attribute that may itself be
    absent (None). -/
inductive PyExc
  | socketError (code : Option Int)
  | otherError
deriving DecidableEq, Repr

/-- Exceptions raised by SocketSerial.open.  notConfigured and alreadyOpen
    are the two SerialException precondition failures raised before any
    socket operation.  connFailed is the generic SerialException raised by
    the failure handler when the caught exception is not a socket.error;
    connFailedErrno is the SerialExceptionWithErrno raised when it is,
    carrying the errno of the socket error. -/
inductive OpenError
  | notConfigured
  | alreadyOpen
  | connFailed
  | connFailedErrno (code : Option Int)
deriving DecidableEq, Repr

/-- The transport state: the configured port string (portstr, absent when the
    port was never configured), the open flag maintained by the serial base,
    the socket handle (some means a live socket object is held), the debug
    dump flag, the read and write timeouts in seconds (absent means blocking),
    the resolved socket path, and the dead last-DTR tracking value. -/
structure SState where
  port : Option (List Char)
  isOpen : Bool
  sock : Option Unit
  dump : Bool
  timeout : Option ℚ
  writeTimeout : Option ℚ
  filename : Option (List Char)
  lastdtr : Option Unit
deriving DecidableEq, Repr

/-- Modelled from the spec: the initial state of a transport that was never
    opened, maintained by the external serial base collaborator - closed,
    no live handle, nothing configured. -/
def initState : SState :=
  { port := none, isOpen := false, sock := none, dump := false,
    timeout := none, writeTimeout := none, filename := none, lastdtr := none }

/-- Python 2 truth value of the guard
    writeTimeout is not None and writeTimeout > 0. -/
def wtPos : Option ℚ → Bool
  | none => false
  | some v => decide (0 < v)

/-- Python 2 truth value of the comparison timeout >= 0 when timeout may be
    None: in Python 2, None >= 0 evaluates to False. -/
def tmoGE0 : Option ℚ → Bool
  | none => false
  | some v => decide (0 ≤ v)

/-- Index of the first occurrence of pat as a contiguous substring of s,
    as computed by the str.index method; none when pat does not occur, in
    which case str.index raises ValueError. -/
def indexOfSub (pat : List Char) : List Char → Option Nat
  | [] => if pat = [] then some 0 else none
  | c :: rest =>
    if pat.isPrefixOf (c :: rest) then some 0
    else (indexOfSub pat rest).map (fun i => i + 1)

/-- os.path.join on POSIX for two components. -/
def pathJoin (a b : List Char) : List Char :=
  if b.head? = some '/' then b
  else if a = [] then b
  else if a.getLast? = some '/' then a ++ b
  else a ++ ['/'] ++ b

/-- The scheme stripping performed by open: the port string from the first
    character after the first occurrence of the three characters colon,
    slash, slash, offset three past its index; none when the separator is
    absent and str.index raises ValueError. -/
def stripScheme (p : List Char) : Option (List Char) :=
  (indexOfSub ("://".toList) p).map (fun i => p.drop (i + 3))

/-- The home expansion performed by open on a filename beginning with the
    two characters tilde, slash: os.getenv HOME is consulted; an absent or
    empty (falsy) HOME leaves the filename unchanged. -/
def expandHome (home : Option (List Char)) (fname : List Char) : List Char :=
  if ("~/".toList).isPrefixOf fname then
    match home with
    | some h => if h = [] then fname else pathJoin h (fname.drop 2)
    | none => fname
  else fname

/-- Outcomes of the two fallible steps inside close: whether the shutdown
    call fails and whether the release call fails.  Both failures are
    swallowed by close.  -/
structure CloseEnv where
  shutdownFails : Bool
  closeFails : Bool
deriving DecidableEq, Repr

/-- SocketSerial.close.  When a socket handle is held, shutdown of both
    directions is attempted and any failure swallowed, then release is
    attempted and any failure swallowed, then the handle is cleared; in
    every case the open flag is cleared last.  The function is total and
    its result does not depend on the env: close never raises, whichever
    of the two steps fail. -/
def close (s : SState) (_env : CloseEnv) : SState :=
  match s.sock with
  | some _ => { s with sock := none, isOpen := false }
  | none => { s with isOpen := false }

/-- The OS interactions of one call to open: the result of socket creation,
    the HOME environment variable, the result of connect, and the outcomes
    of the cleanup close performed by the failure handler. -/
structure OpenEnv where
  createResult : Except PyExc Unit
  home : Option (List Char)
  connectResult : Except PyExc Unit
  closeEnv : CloseEnv
deriving DecidableEq, Repr

/-- The error raised by the failure handler of open for a caught exception:
    a socket.error becomes a SerialExceptionWithErrno carrying its errno,
    anything else a plain SerialException. -/
def connError : PyExc → OpenError
  | PyExc.socketError c => OpenError.connFailedErrno c
  | PyExc.otherError => OpenError.connFailed

/-- SocketSerial.open.  Precondition failures (port not configured, already
    open) are raised before any socket operation.  Then the dump flag is
    cleared and the handle field nulled, a socket is created, the scheme
    prefix is stripped from the port string (str.index raising ValueError
    when the separator is absent), the home prefix is expanded, and connect
    is attempted.  Any exception in that block runs close for cleanup and
    is rethrown as a connection error; on success the open flag is set and
    the last-DTR value reset. -/
def openPort (s : SState) (env : OpenEnv) : SState × Except OpenError Unit :=
  match s.port with
  | none => (s, Except.error OpenError.notConfigured)
  | some p =>
    if s.isOpen then (s, Except.error OpenError.alreadyOpen)
    else
      let s0 : SState := { s with dump := false, sock := none }
      match env.createResult with
      | Except.error e => (close s0 env.closeEnv, Except.error (connError e))
      | Except.ok _ =>
        let s1 : SState := { s0 with sock := some () }
        match stripScheme p with
        | none =>
          (close s1 env.closeEnv, Except.error (connError PyExc.otherError))
        | some f0 =>
          let fname := expandHome env.home f0
          let s2 : SState := { s1 with filename := some fname }
          match env.connectResult with
          | Except.error e => (close s2 env.closeEnv, Except.error (connError e))
          | Except.ok _ =>
            ({ s2 with isOpen := true, lastdtr := none }, Except.ok ())

/-- One OS interaction inside the read loop: the outcome of the readiness
    wait (select on the socket with the read timeout), or the byte chunk
    returned by a recv call. -/
inductive REvent
  | rselect (ready : Bool)
  | rrecv (buf : List Nat)
deriving DecidableEq, Repr

/-- The while loop of SocketSerial.read, replayed against a trace of OS
    events.  Each iteration waits for readability: an expired wait breaks
    out of the loop returning the bytes accumulated so far; otherwise recv
    is called for the remaining count, an empty chunk raises
    portNotOpenError (disconnected peer marker), and a non-empty chunk is
    appended.  The early-abort test after the append mirrors the source
    exactly; its chunk-empty conjunct is never true at that point.  The
    fuel bounds how many iterations can be replayed; none means the fuel
    ran out or the trace does not determine the outcome. -/
def readLoop (fuel : Nat) (tmo : Option ℚ) (size : Int) (acc : List Nat)
    (env : List REvent) : Option (Except PyErr (List Nat)) :=
  match fuel with
  | 0 => none
  | Nat.succ fuel =>
    if (acc.length : Int) < size then
      match env with
      | REvent.rselect ready :: rest =>
        if ready then
          match rest with
          | REvent.rrecv buf :: rest2 =>
            if buf.length = 0 then some (Except.error PyErr.portNotOpen)
            else
              let acc2 := acc ++ buf
              if tmoGE0 tmo && buf.isEmpty then some (Except.ok acc2)
              else readLoop fuel tmo size acc2 rest2
          | _ => none
        else some (Except.ok acc)
      | _ => none
    else some (Except.ok acc)

/-- SocketSerial.read: an absent handle raises portNotOpenError before any
    socket operation; otherwise the accumulator starts empty and the loop
    runs only for a positive requested size. -/
def read (s : SState) (size : Int) (fuel : Nat) (env : List REvent) :
    Option (Except PyErr (List Nat)) :=
  match s.sock with
  | none => some (Except.error PyErr.portNotOpen)
  | some _ =>
    if 0 < size then readLoop fuel s.timeout size [] env
    else some (Except.ok [])

/-- One OS interaction inside the write loop: the outcome of a writability
    wait, or the result of a send call - either the count of bytes accepted
    or the errno of an OS error. -/
inductive WEvent
  | wselect (ready : Bool)
  | wsend (r : Except Int Nat)
deriving DecidableEq, Repr

/-- The while loop of SocketSerial.write, replayed against a trace of OS
    events.  With a positive write timeout configured, a writability wait
    precedes and follows every send; an expired wait executes the raise
    statement naming serial.writeTimeoutError, which fails with NameError
    (the module never binds the name serial), and NameError, not being an
    OSError, escapes the except clause.  A failing send raises socket.error
    carrying an errno; in Python 2 socket.error subclasses IOError, not
    OSError, so the except OSError clause at the bottom of the loop never
    matches it and every send failure - the EAGAIN case included -
    propagates to the caller, leaving the retry test dead code.  After a
    successful send of n bytes the first n bytes of the remaining data are
    dropped and the count decremented by n.  The ok payload is
    instrumentation: it accumulates the chunks accepted by send, in order
    (the Python method itself returns None).  none means the fuel ran out
    or the trace does not determine the outcome. -/
def writeLoop (fuel : Nat) (wt : Option ℚ) (t : Int) (d sent : List Nat)
    (env : List WEvent) : Option (Except PyErr (List Nat)) :=
  match fuel with
  | 0 => none
  | Nat.succ fuel =>
    if t ≤ 0 then some (Except.ok sent)
    else
      let pre : Option (Except PyErr (List WEvent)) :=
        if wtPos wt then
          match env with
          | WEvent.wselect ready :: rest =>
            if ready then some (Except.ok rest)
            else some (Except.error PyErr.nameError)
          | _ => none
        else some (Except.ok env)
      match pre with
      | none => none
      | some (Except.error e) => some (Except.error e)
      | some (Except.ok env1) =>
        match env1 with
        | WEvent.wsend (Except.error code) :: _rest =>
          some (Except.error (PyErr.osError code))
        | WEvent.wsend (Except.ok n) :: rest =>
          let post : Option (Except PyErr (List WEvent)) :=
            if wtPos wt then
              match rest with
              | WEvent.wselect ready :: rest2 =>
                if ready then some (Except.ok rest2)
                else some (Except.error PyErr.nameError)
              | _ => none
            else some (Except.ok rest)
          match post with
          | none => none
          | some (Except.error e) => some (Except.error e)
          | some (Except.ok env2) =>
            writeLoop fuel wt (t - (n : Int)) (d.drop n) (sent ++ d.take n) env2
        | _ => none

/-- SocketSerial.write: an absent handle raises portNotOpenError before any
    socket operation; otherwise the loop starts with the whole data and an
    empty sent accumulator. -/
def write (s : SState) (data : List Nat) (fuel : Nat) (env : List WEvent) :
    Option (Except PyErr (List Nat)) :=
  match s.sock with
  | none => some (Except.error PyErr.portNotOpen)
  | some _ => writeLoop fuel s.writeTimeout ((data.length : Int)) data [] env

/-- SocketSerial.inWaiting: returns 0 unconditionally, with no state check
    and no socket operation; the Except type records that no exception path
    exists. -/
def inWaiting (_s : SState) : Except PyErr Nat := Except.ok 0

/-- SocketSerial.getCTS: a bare return of True, with no state check and no
    socket operation. -/
def getCTS (_s : SState) : Except PyErr Bool := Except.ok true

/-- SocketSerial.getDSR: a bare return of True, with no state check and no
    socket operation. -/
def getDSR (_s : SState) : Except PyErr Bool := Except.ok true

/-- SocketSerial.getRI: a bare return of False, with no state check and no
    socket operation. -/
def getRI (_s : SState) : Except PyErr Bool := Except.ok false

/-- SocketSerial.getCD: a bare return of False, with no state check and no
    socket operation. -/
def getCD (_s : SState) : Except PyErr Bool := Except.ok false

/-- SocketSerial.nonblocking: portNotOpenError on an absent handle, else a
    direct setblocking call on the socket. -/
def nonblocking (s : SState) : Except PyErr Unit :=
  match s.sock with
  | none => Except.error PyErr.portNotOpen
  | some _ => Except.ok ()

/-- SocketSerial.dump: sets the debug dump flag. -/
def dumpSet (s : SState) (enable : Bool) : SState := { s with dump := enable }

/-- The transport states reachable through the public lifecycle: the initial
    never-opened state, open and close steps under arbitrary OS behaviour,
    the dump toggle, and reconfiguration by the serial base (port string and
    timeouts may change between calls; read, write and the status stubs do
    not modify the tracked state).  -/
inductive Reachable : SState → Prop
  | init : Reachable initState
  | openStep (s : SState) (env : OpenEnv) : Reachable s → Reachable (openPort s env).1
  | closeStep (s : SState) (env : CloseEnv) : Reachable s → Reachable (close s env)
  | dumpStep (s : SState) (b : Bool) : Reachable s → Reachable (dumpSet s b)
  | reconfig (s : SState) (p : Option (List Char)) (t w : Option ℚ) :
      Reachable s →
      Reachable { s with port := p, timeout := t, writeTimeout := w }

/-- A concrete open transport: configured, open flag set, live handle, no
    read timeout, no write timeout. -/
def openState : SState :=
  { port := some ("s://p".toList), isOpen := true, sock := some (),
    dump := false, timeout := none, writeTimeout := none,
    filename := some ("p".toList), lastdtr := none }

/-- The open transport with a positive (one second) write timeout. -/
def openWTState : SState := { openState with writeTimeout := some 1 }

/-- A concrete configured but never-opened transport. -/
def cfgState : SState := { initState with port := some ("s://p".toList) }

/-- A concrete open environment whose socket creation fails with a
    socket.error carrying errno 2. -/
def failEnv : OpenEnv :=
  { createResult := Except.error (PyExc.socketError (some 2)), home := none,
    connectResult := Except.ok (), closeEnv := ⟨false, false⟩ }

/-- Whether an open failure is one of the two connection errors raised by
    the failure handler, as opposed to a precondition failure. -/
def isConnError : OpenError → Bool
  | OpenError.connFailed => true
  | OpenError.connFailedErrno _ => true
  | _ => false

/-- The OS contract for a read trace: every recv chunk delivered while the
    loop is still short of size bytes is no longer than the remaining
    requested count (a recv call never returns more bytes than it was asked
    for).  The predicate mirrors the event consumption of readLoop. -/
def readEnvOK (fuel : Nat) (size : Int) (accLen : Nat) (env : List REvent) : Bool :=
  match fuel with
  | 0 => true
  | Nat.succ fuel =>
    if (accLen : Int) < size then
      match env with
      | REvent.rselect ready :: rest =>
        if ready then
          match rest with
          | REvent.rrecv buf :: rest2 =>
            decide ((buf.length : Int) ≤ size - (accLen : Int)) &&
              readEnvOK fuel size (accLen + buf.length) rest2
          | _ => true
        else true
      | _ => true
    else true

/-- C1: on an open transport with a positive write timeout configured, a
    write whose writability wait expires before the first send attempt does
    not raise a write-timeout error: the raise statement names the unbound
    global serial, so the call fails with NameError, with no bytes handed
    to send (no send event is consumed). -/
theorem write_timeout_expiry_raises_name_error :
    write openWTState [42] 3 [WEvent.wselect false] =
      some (Except.error PyErr.nameError) := by decide

/-- C2 counterexample: getCTS on the never-opened transport does not raise
    any error: it returns the fixed value True. -/
theorem getCTS_never_opened_returns_ok :
    getCTS initState = Except.ok true := rfl

/-- C2 (amended): on the never-opened transport, read and write raise
    portNotOpenError whatever the OS trace is (so no socket operation can
    influence the outcome), while the four status getters raise nothing and
    return their fixed stub values. -/
theorem never_opened_read_write_raise_getters_fixed :
    (∀ (size : Int) (fuel : Nat) (env : List REvent),
      read initState size fuel env = some (Except.error PyErr.portNotOpen)) ∧
    (∀ (data : List Nat) (fuel : Nat) (env : List WEvent),
      write initState data fuel env = some (Except.error PyErr.portNotOpen)) ∧
    getCTS initState = Except.ok true ∧
    getDSR initState = Except.ok true ∧
    getRI initState = Except.ok false ∧
    getCD initState = Except.ok false :=
  ⟨fun _ _ _ => rfl, fun _ _ _ => rfl, rfl, rfl, rfl, rfl⟩

/-- C6: close never raises (it is a total function into states), always
    clears the handle and the open flag, and calling it again leaves the
    state unchanged, whatever the outcomes of the shutdown and release
    steps and whatever the starting state - already closed, never opened,
    or partially opened. -/
theorem close_idempotent_never_raises :
    ∀ (s : SState) (env env2 : CloseEnv),
      (close s env).sock = none ∧ (close s env).isOpen = false ∧
      close (close s env) env2 = close s env := by
  intro s env env2
  cases s with
  | mk port isOpen sock dump timeout writeTimeout filename lastdtr =>
    cases sock <;> simp [close]

/-- C8: the handle invariant - the socket handle is present exactly when
    the open flag is set - holds in every reachable transport state, hence
    after every public operation (open in all its outcomes, close, the dump
    toggle and reconfiguration; read, write and the stubs do not modify the
    tracked state). -/
theorem reachable_handle_iff_open :
    ∀ s : SState, Reachable s → s.sock.isSome = s.isOpen := by
  intro s h
  induction h with
  | init => rfl
  | openStep s env _ ih =>
    unfold openPort
    cases hp : s.port with
    | none => simpa using ih
    | some p =>
      by_cases ho : s.isOpen
      · simpa [ho] using ih
      · cases hc : env.createResult with
        | error e => simp [ho, close]
        | ok u =>
          cases hs : stripScheme p with
          | none => simp [ho, hs, close]
          | some f =>
            cases hcn : env.connectResult with
            | error e2 => simp [ho, hs, hcn, close]
            | ok v => simp [ho, hs, hcn]
  | closeStep s env _ _ =>
    cases hs : s.sock <;> simp [close, hs]
  | dumpStep s b _ ih => simpa [dumpSet] using ih
  | reconfig s p t w _ ih => simpa using ih

/-- C8 witness: the invariant at the initial state, obtained from the
    reachability theorem. -/
theorem reachable_handle_iff_open_witness :
    initState.sock.isSome = initState.isOpen :=
  reachable_handle_iff_open initState Reachable.init

/-- C5: a failing open on a configured, not-yet-open transport leaves the
    handle null and the state closed (any partially-created socket is
    released by the cleanup close), and the raised error carries the
    underlying OS errno whenever the underlying failure was a socket error,
    both when creation fails and when connect fails after successful
    creation and scheme stripping. -/
theorem open_failure_cleanup_and_errno :
    ∀ (s : SState) (env : OpenEnv) (p : List Char) (e : OpenError),
      s.port = some p → s.isOpen = false →
      (openPort s env).2 = Except.error e →
      ((openPort s env).1.sock = none ∧ (openPort s env).1.isOpen = false) ∧
      isConnError e = true ∧
      (∀ c, env.createResult = Except.error (PyExc.socketError c) →
        e = OpenError.connFailedErrno c) ∧
      (∀ c f, env.createResult = Except.ok () →
        stripScheme p = some f →
        env.connectResult = Except.error (PyExc.socketError c) →
        e = OpenError.connFailedErrno c) := by
  intro s env p e hp ho herr
  cases hc : env.createResult with
  | error exc =>
    simp only [openPort, hp, ho, hc, Bool.false_eq_true, if_false] at herr ⊢
    simp [close, hc] at herr ⊢
    refine ⟨?_, ?_⟩
    · cases exc <;> simp [connError] at herr <;> subst herr <;> rfl
    · intro c hcc
      subst hcc
      simp [connError] at herr
      exact herr.symm
  | ok u =>
    cases u
    cases hs : stripScheme p with
    | none =>
      simp only [openPort, hp, ho, hc, hs, Bool.false_eq_true, if_false] at herr ⊢
      simp [close, hc, hs] at herr ⊢
      simp [connError] at herr
      subst herr
      rfl
    | some f0 =>
      cases hcn : env.connectResult with
      | error exc =>
        simp only [openPort, hp, ho, hc, hs, hcn, Bool.false_eq_true, if_false]
          at herr ⊢
        simp [close, hc, hs, hcn] at herr ⊢
        refine ⟨?_, ?_⟩
        · cases exc <;> simp [connError] at herr <;> subst herr <;> rfl
        · intro c hcc
          subst hcc
          simp [connError] at herr
          exact herr.symm
      | ok v =>
        cases v
        simp only [openPort, hp, ho, hc, hs, hcn, Bool.false_eq_true, if_false]
          at herr
        simp at herr

/-- C5 witness: the theorem at a concrete configured transport whose socket
    creation fails with errno 2. -/
theorem open_failure_cleanup_and_errno_witness :
    (cfgState.port = some ("s://p".toList) ∧ cfgState.isOpen = false ∧
      (openPort cfgState failEnv).2 =
        Except.error (OpenError.connFailedErrno (some 2))) ∧
    (((openPort cfgState failEnv).1.sock = none ∧
        (openPort cfgState failEnv).1.isOpen = false) ∧
      isConnError (OpenError.connFailedErrno (some 2)) = true ∧
      (∀ c, failEnv.createResult = Except.error (PyExc.socketError c) →
        OpenError.connFailedErrno (some 2) = OpenError.connFailedErrno c) ∧
      (∀ c f, failEnv.createResult = Except.ok () →
        stripScheme ("s://p".toList) = some f →
        failEnv.connectResult = Except.error (PyExc.socketError c) →
        OpenError.connFailedErrno (some 2) = OpenError.connFailedErrno c)) :=
  ⟨⟨rfl, rfl, rfl⟩,
    open_failure_cleanup_and_errno cfgState failEnv ("s://p".toList)
      (OpenError.connFailedErrno (some 2)) rfl rfl rfl⟩

/-- C10: on a configured, not-yet-open transport whose port string has no
    scheme separator, open creates the socket first (no invalid-state
    error): the failing scheme-strip lookup (ValueError from str.index) is
    caught by the generic failure handler, the socket is released, a plain
    connection error without an OS error code is raised, and the transport
    is left closed. -/
theorem open_no_scheme_generic_error :
    ∀ (s : SState) (env : OpenEnv) (p : List Char),
      s.port = some p → s.isOpen = false →
      indexOfSub ("://".toList) p = none →
      env.createResult = Except.ok () →
      (openPort s env).2 = Except.error OpenError.connFailed ∧
      (openPort s env).1.sock = none ∧ (openPort s env).1.isOpen = false := by
  intro s env p hp ho hidx hc
  have hs : stripScheme p = none := by unfold stripScheme; rw [hidx]; rfl
  unfold openPort
  rw [hp]
  simp only [ho]
  rw [hc, hs]
  exact ⟨rfl, by simp [close], by simp [close]⟩

/-- C10 witness: the theorem at a concrete transport configured with the
    scheme-less port string p. -/
theorem open_no_scheme_generic_error_witness :
    indexOfSub ("://".toList) ("p".toList) = none ∧
    (openPort { cfgState with port := some ("p".toList) }
        { failEnv with createResult := Except.ok () }).2 =
      Except.error OpenError.connFailed ∧
    (openPort { cfgState with port := some ("p".toList) }
        { failEnv with createResult := Except.ok () }).1.sock = none ∧
    (openPort { cfgState with port := some ("p".toList) }
        { failEnv with createResult := Except.ok () }).1.isOpen = false := by
  refine ⟨by decide, ?_⟩
  have h := open_no_scheme_generic_error
    { cfgState with port := some ("p".toList) }
    { failEnv with createResult := Except.ok () }
    ("p".toList) rfl rfl (by decide) rfl
  exact ⟨h.1, h.2.1, h.2.2⟩

/-- Helper: a read trace that contains no expired readiness wait can only
    end the loop successfully with at least the requested count delivered. -/
theorem readLoop_ok_no_timeout :
    ∀ (fuel : Nat) (tmo : Option ℚ) (size : Int) (acc : List Nat)
      (env : List REvent) (l : List Nat),
      (∀ ev ∈ env, ev ≠ REvent.rselect false) →
      readLoop fuel tmo size acc env = some (Except.ok l) →
      size ≤ (l.length : Int) := by
  intro fuel tmo size
  induction fuel with
  | zero => intro acc env l h hr; simp [readLoop] at hr
  | succ fuel ih =>
    intro acc env l h hr
    by_cases hlt : (acc.length : Int) < size
    · cases env with
      | nil => simp [readLoop, hlt] at hr
      | cons ev rest =>
        cases ev with
        | rrecv buf => simp [readLoop, hlt] at hr
        | rselect ready =>
          cases ready with
          | false =>
            have hne := h (REvent.rselect false) (by simp)
            simp at hne
          | true =>
            cases rest with
            | nil => simp [readLoop, hlt] at hr
            | cons ev2 rest2 =>
              cases ev2 with
              | rselect r2 => simp [readLoop, hlt] at hr
              | rrecv buf =>
                cases buf with
                | nil => simp [readLoop, hlt] at hr
                | cons b tl =>
                  simp [readLoop, hlt] at hr
                  exact ih (acc ++ b :: tl) rest2 l
                    (fun ev hm => h ev (by simp [hm])) hr
    · simp [readLoop, hlt] at hr
      subst hr
      omega

/-- C4: inside the read loop, a recv of zero bytes right after a readiness
    wait reported the socket readable raises portNotOpenError, discarding
    the bytes accumulated so far; and a successful return short of the
    requested size can only come from an expired readiness wait - on a
    trace with no expired wait, a successful read has delivered at least
    size bytes. -/
theorem read_eof_vs_timeout :
    (∀ (fuel : Nat) (tmo : Option ℚ) (size : Int) (acc : List Nat)
        (rest : List REvent),
      (acc.length : Int) < size →
      readLoop (fuel + 1) tmo size acc
          (REvent.rselect true :: REvent.rrecv [] :: rest) =
        some (Except.error PyErr.portNotOpen)) ∧
    (∀ (s : SState) (size : Int) (fuel : Nat) (env : List REvent)
        (l : List Nat),
      (∀ ev ∈ env, ev ≠ REvent.rselect false) →
      read s size fuel env = some (Except.ok l) →
      size ≤ (l.length : Int)) := by
  constructor
  · intro fuel tmo size acc rest hlt
    simp [readLoop, hlt]
  · intro s size fuel env l h hr
    unfold read at hr
    cases hsock : s.sock with
    | none => rw [hsock] at hr; simp at hr
    | some u =>
      rw [hsock] at hr
      by_cases hsz : 0 < size
      · rw [if_pos hsz] at hr
        exact readLoop_ok_no_timeout fuel s.timeout size [] env l h hr
      · rw [if_neg hsz] at hr
        simp at hr
        subst hr
        simpa using le_of_not_lt hsz

/-- C4 witness: the first part at one byte already accumulated of two
    requested, the second at a trace with no expired wait delivering the
    two requested bytes. -/
theorem read_eof_vs_timeout_witness :
    ((([7] : List Nat).length : Int) < 2 ∧
      readLoop 1 none 2 [7] [REvent.rselect true, REvent.rrecv []] =
        some (Except.error PyErr.portNotOpen)) ∧
    ((∀ ev ∈ ([REvent.rselect true, REvent.rrecv [9, 9]] : List REvent),
        ev ≠ REvent.rselect false) ∧
      (2 : Int) ≤ (([9, 9] : List Nat).length : Int)) :=
  ⟨⟨by decide, read_eof_vs_timeout.1 0 none 2 [7] [] (by decide)⟩,
    ⟨by decide,
      read_eof_vs_timeout.2 openState 2 2
        [REvent.rselect true, REvent.rrecv [9, 9]] [9, 9]
        (by decide) (by decide)⟩⟩

/-- Helper: under the OS contract on recv chunk sizes, the read loop never
    accumulates past the requested size. -/
theorem readLoop_length_le :
    ∀ (fuel : Nat) (tmo : Option ℚ) (size : Int) (acc : List Nat)
      (env : List REvent) (l : List Nat),
      (acc.length : Int) ≤ size →
      readEnvOK fuel size acc.length env = true →
      readLoop fuel tmo size acc env = some (Except.ok l) →
      (l.length : Int) ≤ size := by
  intro fuel tmo size
  induction fuel with
  | zero => intro acc env l hle hok hr; simp [readLoop] at hr
  | succ fuel ih =>
    intro acc env l hle hok hr
    by_cases hlt : (acc.length : Int) < size
    · cases env with
      | nil => simp [readLoop, hlt] at hr
      | cons ev rest =>
        cases ev with
        | rrecv buf => simp [readLoop, hlt] at hr
        | rselect ready =>
          cases ready with
          | false =>
            simp [readLoop, hlt] at hr
            subst hr
            exact hle
          | true =>
            cases rest with
            | nil => simp [readLoop, hlt] at hr
            | cons ev2 rest2 =>
              cases ev2 with
              | rselect r2 => simp [readLoop, hlt] at hr
              | rrecv buf =>
                cases buf with
                | nil => simp [readLoop, hlt] at hr
                | cons b tl =>
                  simp [readLoop, hlt] at hr
                  simp [readEnvOK, hlt] at hok
                  refine ih (acc ++ b :: tl) rest2 l ?_ ?_ hr
                  · have hb := hok.1
                    simp only [List.length_append, List.length_cons]
                    push_cast at hb ⊢
                    omega
                  · have := hok.2
                    simpa [Nat.add_comm, Nat.add_left_comm] using this
    · simp [readLoop, hlt] at hr
      subst hr
      exact hle

/-- C9: a successful read returns at most the requested number of bytes,
    for every trace satisfying the OS contract that a recv chunk never
    exceeds the remaining requested count. -/
theorem read_length_at_most_size :
    ∀ (s : SState) (size : Int) (fuel : Nat) (env : List REvent)
      (l : List Nat),
      0 ≤ size →
      readEnvOK fuel size 0 env = true →
      read s size fuel env = some (Except.ok l) →
      (l.length : Int) ≤ size := by
  intro s size fuel env l hsz hok hr
  unfold read at hr
  cases hsock : s.sock with
  | none => rw [hsock] at hr; simp at hr
  | some u =>
    rw [hsock] at hr
    by_cases h0 : 0 < size
    · rw [if_pos h0] at hr
      exact readLoop_length_le fuel s.timeout size [] env l (by simpa using hsz)
        hok hr
    · rw [if_neg h0] at hr
      simp at hr
      subst hr
      simpa using hsz

/-- C9 witness: a read of two bytes that delivers one byte and then times
    out, under a trace satisfying the OS contract. -/
theorem read_length_at_most_size_witness :
    (0 : Int) ≤ 2 ∧
    readEnvOK 2 2 0 [REvent.rselect true, REvent.rrecv [9],
      REvent.rselect false] = true ∧
    ((([9] : List Nat).length : Int)) ≤ 2 :=
  ⟨by decide, by decide,
    read_length_at_most_size openState 2 2
      [REvent.rselect true, REvent.rrecv [9], REvent.rselect false] [9]
      (by decide) (by decide) (by decide)⟩

/-- Helper: with the remaining count already non-positive, the write loop
    returns the sent accumulator unchanged. -/
theorem writeLoop_nonpos :
    ∀ (fuel : Nat) (wt : Option ℚ) (t : Int) (d sent : List Nat)
      (env : List WEvent) (out : List Nat),
      t ≤ 0 →
      writeLoop fuel wt t d sent env = some (Except.ok out) → out = sent := by
  intro fuel wt t d sent env out ht hw
  cases fuel with
  | zero => simp [writeLoop] at hw
  | succ fuel =>
    simp [writeLoop, ht] at hw
    exact hw.symm

/-- Helper: the step case of the all-bytes-sent argument - after a send of
    n bytes the loop continuation determines the final sent trace. -/
theorem writeLoop_step_ok :
    ∀ (fuel : Nat) (wt : Option ℚ) (d sent : List Nat) (env2 : List WEvent)
      (n : Nat) (out : List Nat),
      writeLoop fuel wt ((d.length : Int) - (n : Int)) (d.drop n)
          (sent ++ d.take n) env2 = some (Except.ok out) →
      (∀ (d2 sent2 : List Nat) (env3 : List WEvent) (out2 : List Nat),
        writeLoop fuel wt ((d2.length : Int)) d2 sent2 env3 =
          some (Except.ok out2) → out2 = sent2 ++ d2) →
      out = sent ++ d := by
  intro fuel wt d sent env2 n out hw ih
  by_cases hn : n ≤ d.length
  · have harg : ((d.length : Int)) - (n : Int) = (((d.drop n).length : Int)) := by
      rw [List.length_drop]; omega
    rw [harg] at hw
    rw [ih (d.drop n) (sent ++ d.take n) env2 out hw, List.append_assoc,
      List.take_append_drop]
  · have ht0 : ((d.length : Int)) - (n : Int) ≤ 0 := by omega
    rw [writeLoop_nonpos fuel wt _ _ _ env2 out ht0 hw,
      List.take_of_length_le (le_of_not_le hn)]

/-- Helper: a write loop started with the remaining count equal to the
    length of the remaining data that returns successfully has handed
    exactly the remaining data to send, appended to the accumulator. -/
theorem writeLoop_ok_all :
    ∀ (fuel : Nat) (wt : Option ℚ) (d sent : List Nat) (env : List WEvent)
      (out : List Nat),
      writeLoop fuel wt ((d.length : Int)) d sent env = some (Except.ok out) →
      out = sent ++ d := by
  intro fuel wt
  induction fuel with
  | zero => intro d sent env out hw; simp [writeLoop] at hw
  | succ fuel ih =>
    intro d sent env out hw
    rcases d with _ | ⟨b, tl⟩
    · simpa using writeLoop_nonpos (fuel + 1) wt 0 [] sent env out le_rfl
        (by simpa using hw)
    · have ht : ¬ ((tl.length : Int) + 1 ≤ 0) := by omega
      by_cases hwt : wtPos wt
      · cases env with
        | nil => simp [writeLoop, ht, hwt] at hw
        | cons ev rest =>
          cases ev with
          | wsend r => simp [writeLoop, ht, hwt] at hw
          | wselect ready =>
            cases ready with
            | false => simp [writeLoop, ht, hwt] at hw
            | true =>
              cases rest with
              | nil => simp [writeLoop, ht, hwt] at hw
              | cons ev2 rest2 =>
                cases ev2 with
                | wselect r2 => simp [writeLoop, ht, hwt] at hw
                | wsend r =>
                  cases r with
                  | error code => simp [writeLoop, ht, hwt] at hw
                  | ok n =>
                    cases rest2 with
                    | nil => simp [writeLoop, ht, hwt] at hw
                    | cons ev3 rest3 =>
                      cases ev3 with
                      | wsend r3 => simp [writeLoop, ht, hwt] at hw
                      | wselect ready2 =>
                        cases ready2 with
                        | false => simp [writeLoop, ht, hwt] at hw
                        | true =>
                          simp [writeLoop, ht, hwt] at hw
                          exact writeLoop_step_ok fuel wt (b :: tl) sent rest3
                            n out (by simpa using hw) (fun d2 s2 e3 o2 =>
                              ih d2 s2 e3 o2)
      · cases env with
        | nil => simp [writeLoop, ht, hwt] at hw
        | cons ev rest =>
          cases ev with
          | wselect r2 => simp [writeLoop, ht, hwt] at hw
          | wsend r =>
            cases r with
            | error code => simp [writeLoop, ht, hwt] at hw
            | ok n =>
              simp [writeLoop, ht, hwt] at hw
              exact writeLoop_step_ok fuel wt (b :: tl) sent rest n out
                (by simpa using hw) (fun d2 s2 e3 o2 => ih d2 s2 e3 o2)

/-- C7: a write that returns normally has handed every byte of data to
    send, in order: the concatenation of the chunks accepted by the
    successive (possibly partial) sends equals data. -/
theorem write_ok_sent_all :
    ∀ (s : SState) (data : List Nat) (fuel : Nat) (env : List WEvent)
      (out : List Nat),
      write s data fuel env = some (Except.ok out) → out = data := by
  intro s data fuel env out hw
  unfold write at hw
  cases hsock : s.sock with
  | none => rw [hsock] at hw; simp at hw
  | some u =>
    rw [hsock] at hw
    simpa using writeLoop_ok_all fuel s.writeTimeout data [] env out hw

/-- C7 witness: a two-byte write completed by two partial one-byte sends. -/
theorem write_ok_sent_all_witness :
    write openState [1, 2] 3 [WEvent.wsend (Except.ok 1),
        WEvent.wsend (Except.ok 1)] = some (Except.ok [1, 2]) ∧
    ([1, 2] : List Nat) = [1, 2] :=
  ⟨by decide,
    write_ok_sent_all openState [1, 2] 3
      [WEvent.wsend (Except.ok 1), WEvent.wsend (Except.ok 1)] [1, 2]
      (by decide)⟩

/-- C3: a send failure with errno EAGAIN is not retried by the write loop:
    in Python 2 sock.send raises socket.error, a subclass of IOError and
    not of OSError, so the except OSError clause never catches it and the
    EAGAIN condition surfaces to the caller as that socket error - here
    evaluated at an open transport with one pending byte, no write timeout,
    whose first send fails with errno EAGAIN. -/
theorem send_eagain_surfaces_to_caller :
    write openState [5] 2 [WEvent.wsend (Except.error EAGAIN)] =
      some (Except.error (PyErr.osError EAGAIN)) := by decide

end SocketSerial
